import Mathlib

/-!
# Karchain real-time WebSocket layer — verification development

Shallow embedding of the frontend real-time update subsystem:

* `useWebSocket` (the exponential-backoff variant of the hook, the one with
  the in-flight guard, deferred start and generation check
  `wsRef.current !== ws`): connection state machine, reconnect/backoff,
  heartbeat, message demultiplexing onto window `CustomEvent`s.
* the consumer side: `useGames`'s debounced invalidation of the `games`
  query (clearTimeout + setTimeout(250)) and `PropsFinder`'s immediate
  invalidation on `propsUpdated`.

The hook's mutable refs (`wsRef`, `reconnectTimeoutRef`, `pingIntervalRef`,
`connectDelayRef`, `shouldReconnect`, `reconnectAttemptsRef`,
`isConnectingRef`) and React state cells become fields of an explicit
record `HookState`; each browser/timer callback becomes a state-transition
function; timers are modelled by option-valued fields that a corresponding
fire event consumes.
-/

namespace Karchain

/-- Minimal JSON value type for opaque payloads and outbound frames. -/
inductive Json where
  | null : Json
  | bool (b : Bool) : Json
  | num (n : Int) : Json
  | str (s : String) : Json
  | arr (xs : List Json) : Json
  | obj (fields : List (String × Json)) : Json
deriving Repr

/-- Decoded inbound envelope (`WebSocketMessage` in useWebSocket.ts).
The TypeScript declaration narrows `type` and `data_type` to string-literal
unions, but the value comes from `JSON.parse` typed `any`, so at runtime both
are arbitrary strings; we model them as such. -/
structure WebSocketMessage where
  type : String
  data_type : Option String
  data : Option Json
  message : Option String
  timestamp : Option Int
deriving Repr

/-- `connectionStatus` React state: 'connecting' | 'connected' | 'disconnected' | 'error'. -/
inductive ConnStatus where
  | connecting | connected | disconnected | error
deriving Repr, DecidableEq

/-- Browser WebSocket readyState constants. -/
inductive ReadyState where
  | CONNECTING | OPEN | CLOSING | CLOSED
deriving Repr, DecidableEq

/-- One underlying browser socket: its identity (generation) and readyState. -/
structure Socket where
  id : Nat
  ready : ReadyState
deriving Repr

/-- The whole mutable state of one `useWebSocket` hook instance.
`reconnectTimer` holds the delay of the pending reconnect timeout (some d),
`pingTimer` whether the 30s ping interval is armed, `connectDelay` whether the
150ms deferred-start timeout is pending.  `socketsCreated` counts
`new WebSocket(url)` evaluations; `sentFrames` logs every `ws.send`;
`dispatched` logs every `window.dispatchEvent(new CustomEvent(name, {detail}))`. -/
structure HookState where
  shouldReconnect : Bool
  isConnecting : Bool
  ws : Option Socket
  nextId : Nat
  isConnected : Bool
  status : ConnStatus
  lastMessage : Option WebSocketMessage
  reconnectAttempts : Nat
  reconnectTimer : Option Nat
  pingTimer : Bool
  connectDelay : Bool
  socketsCreated : Nat
  sentFrames : List Json
  dispatched : List (String × Option Json)
deriving Repr

/-- Initial state of the hook: `useState(false)`, `useState(null)`,
`useState('disconnected')`, all refs null/false except `shouldReconnect`
(initialised `useRef(true)`). -/
def initState : HookState :=
  { shouldReconnect := true, isConnecting := false, ws := none, nextId := 0,
    isConnected := false, status := .disconnected, lastMessage := none,
    reconnectAttempts := 0, reconnectTimer := none, pingTimer := false,
    connectDelay := false, socketsCreated := 0, sentFrames := [],
    dispatched := [] }

/-- `Math.min(30000, 1000 * Math.pow(2, n))` — the backoff delay computed in
`ws.onclose` (and in the constructor catch branch) from the already
incremented attempt counter. -/
def reconnectDelay (n : Nat) : Nat := min 30000 (1000 * 2 ^ n)

/-- The in-flight guard of `connect` (useWebSocket.ts lines 215–221):
`isConnectingRef.current || (wsRef.current && (readyState OPEN or CONNECTING))`. -/
def inFlight (s : HookState) : Bool :=
  s.isConnecting ||
    (match s.ws with
     | some w => w.ready == .OPEN || w.ready == .CONNECTING
     | none => false)

/-- `connect` (lines 210–227, success path of `new WebSocket`): refuse when
unmounted, refuse when a socket is already in flight, otherwise mark
connecting, set status 'connecting' and create a fresh socket. -/
def connect (s : HookState) : HookState :=
  if !s.shouldReconnect then s
  else if inFlight s then s
  else
    { s with isConnecting := true, status := .connecting,
             ws := some ⟨s.nextId, .CONNECTING⟩, nextId := s.nextId + 1,
             socketsCreated := s.socketsCreated + 1 }

/-- The outbound keepalive frame `{ type: 'ping' }`. -/
def pingFrame : Json := Json.obj [("type", Json.str "ping")]

/-- `ws.onopen` (lines 230–251) for the socket with identity `sid`:
ignored unless `wsRef.current` is that very socket (generation check);
if unmounted, just close the socket; otherwise clear the in-flight flag,
set connected status, reset the attempt counter to 0 and arm the 30s ping
interval. -/
def onOpen (s : HookState) (sid : Nat) : HookState :=
  match s.ws with
  | none => s
  | some w =>
    if w.id ≠ sid then s
    else if !s.shouldReconnect then { s with ws := some { w with ready := .CLOSED } }
    else
      { s with isConnecting := false, isConnected := true, status := .connected,
               reconnectAttempts := 0, ws := some { w with ready := .OPEN },
               pingTimer := true }

/-- `ws.onclose` (lines 288–314): generation and mount guards; then clear the
in-flight flag, drop the socket reference, set disconnected status, stop the
ping interval, increment the attempt counter and schedule a reconnect after
`min(30000, 1000 * 2^attempts)`. -/
def onClose (s : HookState) (sid : Nat) : HookState :=
  match s.ws with
  | none => s
  | some w =>
    if w.id ≠ sid then s
    else if !s.shouldReconnect then s
    else
      { s with isConnecting := false, ws := none, isConnected := false,
               status := .disconnected, pingTimer := false,
               reconnectAttempts := s.reconnectAttempts + 1,
               reconnectTimer := some (reconnectDelay (s.reconnectAttempts + 1)) }

/-- `ws.onerror` (lines 316–322): guards, then status 'connecting' (reconnect
itself is left to `onclose`). -/
def onError (s : HookState) (sid : Nat) : HookState :=
  match s.ws with
  | none => s
  | some w =>
    if w.id ≠ sid then s
    else if !s.shouldReconnect then s
    else { s with status := .connecting }

/-- `ws.onmessage` (lines 253–286) with `raw = none` standing for a frame
`JSON.parse` rejects (caught, logged, dropped).  On a parsed envelope the
hook always records it as `lastMessage`, then dispatches a window event only
for `data_update` frames whose `data_type` is one of the three hard-coded
categories; every other type ('connection', 'pong', 'error', anything else)
produces no dispatch. -/
def onMessage (s : HookState) (sid : Nat) (raw : Option WebSocketMessage) : HookState :=
  match s.ws with
  | none => s
  | some w =>
    if w.id ≠ sid then s
    else if !s.shouldReconnect then s
    else
      match raw with
      | none => s
      | some m =>
        let s1 := { s with lastMessage := some m }
        if m.type = "data_update" then
          if m.data_type = some "games" then
            { s1 with dispatched := s1.dispatched ++ [("gamesUpdated", m.data)] }
          else if m.data_type = some "players" then
            { s1 with dispatched := s1.dispatched ++ [("playersUpdated", m.data)] }
          else if m.data_type = some "player_props" then
            { s1 with dispatched := s1.dispatched ++ [("propsUpdated", m.data)] }
          else s1
        else s1

/-- The reconnect timeout firing (callback at lines 308–313): the timer is
consumed; the callback re-checks `shouldReconnect` and calls `connect`. -/
def reconnectFire (s : HookState) : HookState :=
  match s.reconnectTimer with
  | none => s
  | some _ =>
    let s1 := { s with reconnectTimer := none }
    if s1.shouldReconnect then connect s1 else s1

/-- One tick of the ping interval (lines 246–250): only if the interval is
armed and the captured socket is OPEN does it send `{type:'ping'}`.  While
the interval is armed the current socket is the one the closure captured
(the interval is cleared whenever that socket goes away). -/
def pingFire (s : HookState) : HookState :=
  if s.pingTimer then
    match s.ws with
    | some w => if w.ready == .OPEN then { s with sentFrames := s.sentFrames ++ [pingFrame] } else s
    | none => s
  else s

/-- The 150ms deferred-start timeout firing (lines 363–365): consumed, then
`connect` if still mounted. -/
def connectDelayFire (s : HookState) : HookState :=
  if s.connectDelay then
    let s1 := { s with connectDelay := false }
    if s1.shouldReconnect then connect s1 else s1
  else s

/-- `sendMessage` (lines 338–344): deliver only when the current socket is
OPEN; otherwise log a warning and drop the message — no buffering. -/
def sendMessage (s : HookState) (m : Json) : HookState :=
  match s.ws with
  | some w => if w.ready == .OPEN then { s with sentFrames := s.sentFrames ++ [m] } else s
  | none => s

/-- `reconnect` / `manualReconnect` (lines 346–357). -/
def manualReconnect (s : HookState) : HookState :=
  connect { s with shouldReconnect := true, reconnectAttempts := 0,
                   isConnecting := false, ws := none,
                   reconnectTimer := none, pingTimer := false }

/-- The mount effect body (lines 359–365): mark mounted and arm the 150ms
deferred-start timeout. -/
def mount (s : HookState) : HookState :=
  { s with shouldReconnect := true, connectDelay := true }

/-- The effect cleanup (lines 367–383), the hook's `stop()`: clear the
mounted flag and the in-flight flag, cancel the deferred-start timeout,
close and drop the socket, cancel the reconnect timeout and the ping
interval. -/
def cleanup (s : HookState) : HookState :=
  { s with shouldReconnect := false, isConnecting := false,
           connectDelay := false, ws := none,
           reconnectTimer := none, pingTimer := false }

/-- The spontaneous events of the hook: socket callbacks and timer fires
(every suspension point that is not an explicit API call). -/
inductive WsEvent where
  | sockOpen (sid : Nat)
  | sockClose (sid : Nat)
  | sockError (sid : Nat)
  | sockMessage (sid : Nat) (raw : Option WebSocketMessage)
  | reconFire
  | heartbeat
  | deferFire

/-- Dispatch one spontaneous event to its handler. -/
def step (s : HookState) : WsEvent → HookState
  | .sockOpen sid => onOpen s sid
  | .sockClose sid => onClose s sid
  | .sockError sid => onError s sid
  | .sockMessage sid raw => onMessage s sid raw
  | .reconFire => reconnectFire s
  | .heartbeat => pingFire s
  | .deferFire => connectDelayFire s

/-- Run a sequence of spontaneous events. -/
def runEvents (s : HookState) : List WsEvent → HookState
  | [] => s
  | e :: es => runEvents (step s e) es

/-- Window event listeners: (event name, handler identity).  Dispatching a
`CustomEvent` delivers its detail to every listener registered under that
event name. -/
def deliver (listeners : List (String × Nat)) (ev : String × Option Json) :
    List (Nat × Option Json) :=
  listeners.filterMap (fun l => if l.1 == ev.1 then some (l.2, ev.2) else none)

/-!
## Consumer side

`useGames` (the variant with `invalidateTimer`): on each `gamesUpdated`
window event it clears any pending timeout and schedules
`queryClient.invalidateQueries({queryKey:["games"]})` 250ms later — a
trailing-edge debounce.  `PropsFinder.handlePropsUpdate`: on each
`propsUpdated` event it invalidates `["advancedProps"]` immediately, with no
timer.  No component registers a listener for `playersUpdated`.

Time is explicit: `gamesPending` holds the absolute deadline of the pending
invalidate timeout; `gamesFires`/`propsFires` log the times at which the
respective `invalidateQueries` calls run.
-/

/-- The coalescing window of `useGames`'s invalidate timer (250 ms). -/
def coalesceD : Nat := 250

/-- Consumer-side state: `useGames`'s `invalidateTimer` ref plus logs of the
downstream refresh (query-invalidation) calls of both consumers. -/
structure FrontendState where
  gamesPending : Option Nat
  gamesFires : List Nat
  propsFires : List Nat
deriving Repr, DecidableEq

/-- No timer pending, nothing fired. -/
def initFrontend : FrontendState := { gamesPending := none, gamesFires := [], propsFires := [] }

/-- Fire `useGames`'s pending invalidate timeout if its deadline has been
reached by time `t`: run `invalidateQueries(["games"])` (at the deadline)
and clear the timer. -/
def fireGamesIfDue (t : Nat) (s : FrontendState) : FrontendState :=
  match s.gamesPending with
  | some d => if d ≤ t then { s with gamesPending := none, gamesFires := s.gamesFires ++ [d] } else s
  | none => s

/-- `handleGamesUpdate` (useGames, the debounced variant) running at time
`t`: `clearTimeout` on any pending timer, then `setTimeout(..., 250)`. -/
def handleGamesUpdate (t : Nat) (s : FrontendState) : FrontendState :=
  { s with gamesPending := some (t + coalesceD) }

/-- `handlePropsUpdate` (PropsFinder): invalidate `["advancedProps"]`
immediately, no coalescing. -/
def handlePropsUpdate (t : Nat) (s : FrontendState) : FrontendState :=
  { s with propsFires := s.propsFires ++ [t] }

/-- One window event named `n` dispatched at time `t`: `gamesUpdated` is
handled by `useGames`, `propsUpdated` by `PropsFinder`; any other name
(in particular `playersUpdated`) has no registered listener. -/
def dispatchWindow (n : String) (t : Nat) (s : FrontendState) : FrontendState :=
  if n = "gamesUpdated" then handleGamesUpdate t s
  else if n = "propsUpdated" then handlePropsUpdate t s
  else s

/-- Run a time-ordered list of window events, firing the pending invalidate
timer whenever its deadline passes, and observe up to time `T`. -/
def runFrontend : List (String × Nat) → Nat → FrontendState → FrontendState
  | [], T, s => fireGamesIfDue T s
  | (n, t) :: es, T, s => runFrontend es T (dispatchWindow n t (fireGamesIfDue t s))

/-- `useGames`'s effect cleanup (useAvailableDates.ts lines 56–61): remove
the listener and `clearTimeout` the pending invalidate timer. -/
def coCleanup (s : FrontendState) : FrontendState := { s with gamesPending := none }

/-- The subscribe control frame `{ type: "subscribe", data_type: "games" }`
that `useGames` passes to `sendMessage` in its mount effect. -/
def subscribeFrame : Json :=
  Json.obj [("type", Json.str "subscribe"), ("data_type", Json.str "games")]

/-- The condition under which `sendMessage` actually sends:
`wsRef.current && wsRef.current.readyState === WebSocket.OPEN`. -/
def wsOpen (s : HookState) : Bool :=
  match s.ws with
  | some w => w.ready == .OPEN
  | none => false

/-- A concrete connected hook state: socket 0 OPEN, heartbeat armed. -/
def connectedState : HookState :=
  { initState with ws := some ⟨0, ReadyState.OPEN⟩, isConnected := true,
                   status := ConnStatus.connected, pingTimer := true }

/-- `sortedFrom c ts`: every element of `ts` is ≥ `c` and `ts` is
nondecreasing — the event times arrive in order. -/
def sortedFrom (c : Nat) : List Nat → Prop
  | [] => True
  | t :: ts => c ≤ t ∧ sortedFrom t ts

def decSortedFrom : ∀ (c : Nat) (ts : List Nat), Decidable (sortedFrom c ts)
  | _, [] => .isTrue trivial
  | c, t :: ts =>
    have : Decidable (sortedFrom t ts) := decSortedFrom t ts
    inferInstanceAs (Decidable (c ≤ t ∧ sortedFrom t ts))

instance (c : Nat) (ts : List Nat) : Decidable (sortedFrom c ts) := decSortedFrom c ts

/-!
## Theorems
-/

/-- After `cleanup`, every spontaneous event (socket callback or timer fire)
leaves the state unchanged: the socket reference is gone, so the generation
guards reject all socket callbacks, and every timer field is cleared, so no
fire event has a timer to consume. -/
lemma step_cleanup (s : HookState) (e : WsEvent) : step (cleanup s) e = cleanup s := by
  cases e <;>
    simp [step, cleanup, onOpen, onClose, onError, onMessage, reconnectFire,
          pingFire, connectDelayFire]

lemma runEvents_cleanup (s : HookState) (es : List WsEvent) :
    runEvents (cleanup s) es = cleanup s := by
  induction es with
  | nil => rfl
  | cons e es ih => rw [runEvents, step_cleanup]; exact ih

/-- `connect` never sends a frame. -/
lemma connect_sentFrames (s : HookState) : (connect s).sentFrames = s.sentFrames := by
  unfold connect
  cases h1 : s.shouldReconnect <;> cases h2 : inFlight s <;> simp [h1, h2]

/-- `ws.onopen` never sends a frame (the subscribe control frame in
particular is not sent on the transition to `Connected`). -/
lemma onOpen_sentFrames (s : HookState) (sid : Nat) :
    (onOpen s sid).sentFrames = s.sentFrames := by
  unfold onOpen
  cases hws : s.ws with
  | none => rfl
  | some w =>
    by_cases h1 : w.id ≠ sid
    · simp [h1]
    · cases h2 : s.shouldReconnect <;> simp [h1, h2]

/-- `ws.onclose` never sends a frame. -/
lemma onClose_sentFrames (s : HookState) (sid : Nat) :
    (onClose s sid).sentFrames = s.sentFrames := by
  unfold onClose
  cases hws : s.ws with
  | none => rfl
  | some w =>
    by_cases h1 : w.id ≠ sid
    · simp [h1]
    · cases h2 : s.shouldReconnect <;> simp [h1, h2]

/-- `ws.onerror` never sends a frame. -/
lemma onError_sentFrames (s : HookState) (sid : Nat) :
    (onError s sid).sentFrames = s.sentFrames := by
  unfold onError
  cases hws : s.ws with
  | none => rfl
  | some w =>
    by_cases h1 : w.id ≠ sid
    · simp [h1]
    · cases h2 : s.shouldReconnect <;> simp [h1, h2]

/-- `ws.onmessage` never sends a frame. -/
lemma onMessage_sentFrames (s : HookState) (sid : Nat) (raw : Option WebSocketMessage) :
    (onMessage s sid raw).sentFrames = s.sentFrames := by
  unfold onMessage
  cases hws : s.ws with
  | none => rfl
  | some w =>
    by_cases h1 : w.id ≠ sid
    · simp [h1]
    · cases h2 : s.shouldReconnect
      · simp [h1, h2]
      · cases raw with
        | none => simp [h1, h2]
        | some m =>
          simp only [h1, h2]
          repeat' split
          all_goals rfl

/-- The reconnect timer firing sends nothing (it only calls `connect`). -/
lemma reconnectFire_sentFrames (s : HookState) :
    (reconnectFire s).sentFrames = s.sentFrames := by
  unfold reconnectFire
  cases ht : s.reconnectTimer with
  | none => rfl
  | some d => cases h2 : s.shouldReconnect <;> simp [h2, connect_sentFrames]

/-- The deferred-start timer firing sends nothing. -/
lemma connectDelayFire_sentFrames (s : HookState) :
    (connectDelayFire s).sentFrames = s.sentFrames := by
  unfold connectDelayFire
  cases h1 : s.connectDelay <;> cases h2 : s.shouldReconnect <;>
    simp [h1, h2, connect_sentFrames]

/-- A heartbeat tick sends either nothing or exactly one ping frame. -/
lemma pingFire_sentFrames (s : HookState) :
    (pingFire s).sentFrames = s.sentFrames ∨
    (pingFire s).sentFrames = s.sentFrames ++ [pingFrame] := by
  unfold pingFire
  cases h1 : s.pingTimer
  · left; rfl
  · cases hws : s.ws with
    | none => left; rfl
    | some w =>
      cases h2 : (w.ready == ReadyState.OPEN)
      · left; simp [h2]
      · right; simp [h2]

/-- C2: calling `connect` while a connection is already in flight
(`Connecting` or `Connected`) is a no-op, and two consecutive `connect`
calls from a startable state create exactly one underlying socket. -/
theorem C2_single_socket :
    (∀ s : HookState, inFlight s = true → connect s = s) ∧
    (∀ s : HookState, s.shouldReconnect = true → inFlight s = false →
      (connect (connect s)).socketsCreated = s.socketsCreated + 1) := by
  constructor
  · intro s h
    unfold connect
    cases hsr : s.shouldReconnect <;> simp [h, hsr]
  · intro s hsr hf
    simp [connect, inFlight, hsr, hf] at *
    simp [connect, inFlight, hsr, hf]

/-- C2 witness: a state already `Connecting` is left untouched, and a double
`connect` from the freshly mounted state creates exactly one socket. -/
theorem C2_single_socket_witness :
    connect { initState with isConnecting := true } = { initState with isConnecting := true } ∧
    (connect (connect (mount initState))).socketsCreated = (mount initState).socketsCreated + 1 :=
  ⟨C2_single_socket.1 _ rfl, C2_single_socket.2 (mount initState) rfl rfl⟩

/-- C3: the effect cleanup (`stop()`) clears the reconnect timeout, the ping
interval and the deferred-start timeout, and afterwards no sequence of
spontaneous events (timer fires, socket callbacks) changes the state at all —
zero reconnect attempts, zero heartbeat pings; likewise `useGames`'s cleanup
clears the invalidate timer, so advancing time fires no coalescer refresh. -/
theorem C3_stop_cancels_everything :
    (∀ s : HookState, (cleanup s).reconnectTimer = none ∧ (cleanup s).pingTimer = false ∧
        (cleanup s).connectDelay = false) ∧
    (∀ (s : HookState) (es : List WsEvent), runEvents (cleanup s) es = cleanup s) ∧
    (∀ (c : FrontendState) (t : Nat), fireGamesIfDue t (coCleanup c) = coCleanup c) := by
  refine ⟨fun s => ⟨rfl, rfl, rfl⟩, runEvents_cleanup, fun c t => rfl⟩

/-- C4: `ws.onclose` schedules the reconnect with delay
`reconnectDelay n = min 30000 (1000 * 2^n)` where `n` is the freshly
incremented attempt counter; the delay formula is non-decreasing in `n` and
bounded by the 30000 ms cap. -/
theorem C4_backoff_delay :
    (∀ (s : HookState) (w : Socket), s.ws = some w → s.shouldReconnect = true →
      (onClose s w.id).reconnectAttempts = s.reconnectAttempts + 1 ∧
      (onClose s w.id).reconnectTimer = some (reconnectDelay (s.reconnectAttempts + 1))) ∧
    (∀ n : Nat, reconnectDelay n = min 30000 (1000 * 2 ^ n)) ∧
    (∀ n : Nat, reconnectDelay n ≤ reconnectDelay (n + 1)) ∧
    (∀ n : Nat, reconnectDelay n ≤ 30000) := by
  refine ⟨?_, fun n => rfl, ?_, fun n => Nat.min_le_left _ _⟩
  · intro s w hws hsr
    simp [onClose, hws, hsr]
  · intro n
    exact min_le_min (le_refl _)
      (Nat.mul_le_mul_left _ (Nat.pow_le_pow_right (by norm_num) (Nat.le_succ n)))

/-- C4 witness: from the mounted state with its first socket in flight, the
close callback schedules `min 30000 (1000 * 2^1) = 2000` ms. -/
theorem C4_backoff_delay_witness :
    (onClose { initState with ws := some ⟨0, ReadyState.CONNECTING⟩ } 0).reconnectAttempts = 0 + 1 ∧
    (onClose { initState with ws := some ⟨0, ReadyState.CONNECTING⟩ } 0).reconnectTimer
      = some (reconnectDelay (0 + 1)) :=
  C4_backoff_delay.1 _ ⟨0, ReadyState.CONNECTING⟩ rfl rfl

/-- C5 counterexample: connect, open (attempt counter reset to 0), then an
unexpected close — the reconnect is scheduled with 2000 ms, not the 1000 ms
base delay the claim asserts. -/
theorem C5_base_delay_counterexample :
    (runEvents (mount initState) [.deferFire, .sockOpen 0]).reconnectAttempts = 0 ∧
    (runEvents (mount initState) [.deferFire, .sockOpen 0, .sockClose 0]).reconnectTimer
      = some 2000 ∧
    some (2000 : Nat) ≠ some (1000 : Nat) := by
  refine ⟨rfl, rfl, by decide⟩

/-- C5 (amended): after every successful transition into `Connected` the
attempt counter is 0, so the next failure increments it to 1 and schedules
the reconnect with `reconnectDelay 1 = 2000` ms (base·2¹), not the 1000 ms
base delay. -/
theorem C5_attempts_reset :
    ∀ (s : HookState) (w : Socket), s.ws = some w → s.shouldReconnect = true →
      (onOpen s w.id).reconnectAttempts = 0 ∧
      (onClose (onOpen s w.id) w.id).reconnectTimer = some (reconnectDelay 1) ∧
      reconnectDelay 1 = 2000 := by
  intro s w hws hsr
  refine ⟨?_, ?_, rfl⟩ <;> simp [onOpen, onClose, hws, hsr]

/-- C5 witness: the freshly created first socket opens and then closes. -/
theorem C5_attempts_reset_witness :
    (onOpen { initState with ws := some ⟨0, ReadyState.CONNECTING⟩ } 0).reconnectAttempts = 0 ∧
    (onClose (onOpen { initState with ws := some ⟨0, ReadyState.CONNECTING⟩ } 0) 0).reconnectTimer
      = some (reconnectDelay 1) ∧
    reconnectDelay 1 = 2000 :=
  C5_attempts_reset _ ⟨0, ReadyState.CONNECTING⟩ rfl rfl

/-- C6 counterexample: a connected client whose socket closes unexpectedly is
put in status `disconnected` by the close callback, not `connecting` as the
claim states; `connecting` is entered only later, when the reconnect timer
fires. -/
theorem C6_close_status_counterexample :
    (runEvents (mount initState) [.deferFire, .sockOpen 0]).status = ConnStatus.connected ∧
    (runEvents (mount initState) [.deferFire, .sockOpen 0, .sockClose 0]).status
      = ConnStatus.disconnected ∧
    ConnStatus.disconnected ≠ ConnStatus.connecting := by
  refine ⟨rfl, rfl, by decide⟩

/-- C6 (amended): on an unexpected close while `Connected` (attempt counter
0, `stop()` not called) the status becomes `disconnected` — not the `error`
state — a reconnect timer is scheduled with delay
`reconnectDelay 1 = 1000·2¹ = 2000` ms, and when that timer fires the status
becomes `connecting`. -/
theorem C6_unexpected_close :
    ∀ (s : HookState) (w : Socket), s.ws = some w → s.shouldReconnect = true →
      s.status = ConnStatus.connected → s.reconnectAttempts = 0 →
      (onClose s w.id).status = ConnStatus.disconnected ∧
      (onClose s w.id).status ≠ ConnStatus.error ∧
      (onClose s w.id).reconnectTimer = some (reconnectDelay 1) ∧
      reconnectDelay 1 = 2000 ∧
      (reconnectFire (onClose s w.id)).status = ConnStatus.connecting := by
  intro s w hws hsr hst ha
  refine ⟨?_, ?_, ?_, rfl, ?_⟩ <;>
    simp [onClose, reconnectFire, connect, inFlight, hws, hsr, ha]

/-- C6 witness: a concrete connected state, closed, then the reconnect timer
fires. -/
theorem C6_unexpected_close_witness :
    (onClose connectedState 0).status = ConnStatus.disconnected ∧
    (onClose connectedState 0).status ≠ ConnStatus.error ∧
    (onClose connectedState 0).reconnectTimer = some (reconnectDelay 1) ∧
    reconnectDelay 1 = 2000 ∧
    (reconnectFire (onClose connectedState 0)).status = ConnStatus.connecting :=
  C6_unexpected_close connectedState ⟨0, ReadyState.OPEN⟩ rfl rfl rfl rfl

/-- C1 counterexample: `subscribe("games")` is sent (via `sendMessage`) while
the connection is still `Connecting`; the frame is dropped, and it is still
unsent after the transition to `Connected` — and still unsent after a full
drop/reconnect/reopen cycle.  The claim's deferred send and re-send do not
happen. -/
theorem C1_subscribe_never_sent_counterexample :
    (runEvents (sendMessage (runEvents (mount initState) [.deferFire]) subscribeFrame)
        [.sockOpen 0]).status = ConnStatus.connected ∧
    (runEvents (sendMessage (runEvents (mount initState) [.deferFire]) subscribeFrame)
        [.sockOpen 0]).sentFrames = [] ∧
    (runEvents (sendMessage (runEvents (mount initState) [.deferFire]) subscribeFrame)
        [.sockOpen 0, .sockClose 0, .reconFire, .sockOpen 1]).status = ConnStatus.connected ∧
    (runEvents (sendMessage (runEvents (mount initState) [.deferFire]) subscribeFrame)
        [.sockOpen 0, .sockClose 0, .reconFire, .sockOpen 1]).sentFrames = [] := by
  refine ⟨rfl, rfl, rfl, rfl⟩

/-- C1 (amended): `sendMessage` delivers the frame only when the current
socket is OPEN; when it is not, the message is dropped (warn-and-drop, no
buffering), so a subscribe sent before `Connected` is never transmitted —
and no spontaneous event ever sends anything except the heartbeat ping, so
the dropped subscribe is not re-sent on (re)connect either. -/
theorem C1_send_only_when_open :
    (∀ (s : HookState) (m : Json), wsOpen s = false → sendMessage s m = s) ∧
    (∀ (s : HookState) (m : Json), wsOpen s = true →
        (sendMessage s m).sentFrames = s.sentFrames ++ [m]) ∧
    (∀ (s : HookState) (e : WsEvent),
        (step s e).sentFrames = s.sentFrames ∨
        (step s e).sentFrames = s.sentFrames ++ [pingFrame]) := by
  refine ⟨?_, ?_, ?_⟩
  · intro s m h
    unfold sendMessage wsOpen at *
    cases hws : s.ws with
    | none => simp
    | some w => simp [hws] at h ⊢; simp [h]
  · intro s m h
    unfold sendMessage wsOpen at *
    cases hws : s.ws with
    | none => simp [hws] at h
    | some w => simp [hws] at h ⊢; simp [h]
  · intro s e
    cases e with
    | sockOpen sid => exact Or.inl (onOpen_sentFrames s sid)
    | sockClose sid => exact Or.inl (onClose_sentFrames s sid)
    | sockError sid => exact Or.inl (onError_sentFrames s sid)
    | sockMessage sid raw => exact Or.inl (onMessage_sentFrames s sid raw)
    | reconFire => exact Or.inl (reconnectFire_sentFrames s)
    | heartbeat => exact pingFire_sentFrames s
    | deferFire => exact Or.inl (connectDelayFire_sentFrames s)

/-- C1 witness: the initial state (no socket) drops a subscribe; a connected
state appends it to the sent frames. -/
theorem C1_send_only_when_open_witness :
    sendMessage initState subscribeFrame = initState ∧
    (sendMessage connectedState subscribeFrame).sentFrames
      = connectedState.sentFrames ++ [subscribeFrame] :=
  ⟨C1_send_only_when_open.1 initState subscribeFrame rfl,
   C1_send_only_when_open.2.1 connectedState subscribeFrame rfl⟩

/-- Processing further `gamesUpdated` events while the pending invalidate
deadline lies beyond every one of them: the timer keeps being pushed back
(debounce) and fires exactly once at the end. -/
lemma games_burst_aux :
    ∀ (ts : List Nat) (t0 cur d T : Nat) (gf pf : List Nat),
      t0 ≤ cur → t0 + coalesceD ≤ d → d ≤ T →
      sortedFrom cur ts → (∀ t ∈ ts, t < t0 + coalesceD) →
      (∀ t ∈ ts, t + coalesceD ≤ T) →
      (runFrontend (ts.map (fun t => ("gamesUpdated", t))) T
          ⟨some d, gf, pf⟩).gamesFires.length = gf.length + 1 ∧
      (runFrontend (ts.map (fun t => ("gamesUpdated", t))) T
          ⟨some d, gf, pf⟩).propsFires = pf := by
  intro ts
  induction ts with
  | nil =>
    intro t0 cur d T gf pf h0 hd hdT hs hw hT
    simp [runFrontend, fireGamesIfDue, hdT]
  | cons t ts ih =>
    intro t0 cur d T gf pf h0 hd hdT hs hw hT
    have htd : t < d := lt_of_lt_of_le (hw t (by simp)) hd
    have hstep : runFrontend (((t :: ts).map (fun t => ("gamesUpdated", t)))) T ⟨some d, gf, pf⟩
        = runFrontend (ts.map (fun t => ("gamesUpdated", t))) T ⟨some (t + coalesceD), gf, pf⟩ := by
      simp [runFrontend, fireGamesIfDue, dispatchWindow, handleGamesUpdate,
            Nat.not_le.mpr htd]
    rw [hstep]
    exact ih t0 t (t + coalesceD) T gf pf (le_trans h0 hs.1)
      (Nat.add_le_add_right (le_trans h0 hs.1) _)
      (hT t (by simp)) hs.2
      (fun x hx => hw x (List.mem_cons_of_mem _ hx))
      (fun x hx => hT x (List.mem_cons_of_mem _ hx))

/-- Dispatching only `propsUpdated` events from a state with no pending
games timer: each event invalidates immediately and the games coalescer is
never touched. -/
lemma props_immediate_aux :
    ∀ (ts : List Nat) (T : Nat) (gf pf : List Nat),
      (runFrontend (ts.map (fun t => ("propsUpdated", t))) T
          ⟨none, gf, pf⟩).propsFires = pf ++ ts ∧
      (runFrontend (ts.map (fun t => ("propsUpdated", t))) T
          ⟨none, gf, pf⟩).gamesFires = gf := by
  intro ts
  induction ts with
  | nil => intro T gf pf; simp [runFrontend, fireGamesIfDue]
  | cons t ts ih =>
    intro T gf pf
    have hstep : runFrontend (((t :: ts).map (fun t => ("propsUpdated", t)))) T ⟨none, gf, pf⟩
        = runFrontend (ts.map (fun t => ("propsUpdated", t))) T ⟨none, gf, pf ++ [t]⟩ := by
      simp [runFrontend, fireGamesIfDue, dispatchWindow, handlePropsUpdate]
    rw [hstep]
    refine ⟨?_, (ih T gf (pf ++ [t])).2⟩
    rw [(ih T gf (pf ++ [t])).1, List.append_assoc]
    rfl

/-- C7 counterexample: two `player_props` notifications 50 ms apart — the
same `data_type`, well within the 250 ms window — produce two immediate
downstream refresh calls, not the one call the claim requires. -/
theorem C7_props_not_coalesced_counterexample :
    (runFrontend [("propsUpdated", 0), ("propsUpdated", 50)] 1000 initFrontend).propsFires
      = [0, 50] ∧
    ¬ (runFrontend [("propsUpdated", 0), ("propsUpdated", 50)] 1000
        initFrontend).propsFires.length = 1 := by
  refine ⟨rfl, by decide⟩

/-- C7 (amended): only the `games` key is coalesced.  A burst of K ≥ 1
`games` notifications whose times are nondecreasing and all within the
250 ms window of the first produces exactly one games refresh and no props
refresh; K `player_props` notifications produce K immediate props refreshes
and no games refresh — the two keys' handlers share no state. -/
theorem C7_per_key_coalescing :
    (∀ (t0 : Nat) (ts : List Nat) (T : Nat),
      sortedFrom t0 ts → (∀ t ∈ ts, t < t0 + coalesceD) →
      t0 + coalesceD ≤ T → (∀ t ∈ ts, t + coalesceD ≤ T) →
      (runFrontend ((t0 :: ts).map (fun t => ("gamesUpdated", t))) T
          initFrontend).gamesFires.length = 1 ∧
      (runFrontend ((t0 :: ts).map (fun t => ("gamesUpdated", t))) T
          initFrontend).propsFires = []) ∧
    (∀ (ts : List Nat) (T : Nat),
      (runFrontend (ts.map (fun t => ("propsUpdated", t))) T
          initFrontend).propsFires.length = ts.length ∧
      (runFrontend (ts.map (fun t => ("propsUpdated", t))) T
          initFrontend).gamesFires = []) := by
  constructor
  · intro t0 ts T hs hw hT0 hT
    have hstep : runFrontend (((t0 :: ts).map (fun t => ("gamesUpdated", t)))) T initFrontend
        = runFrontend (ts.map (fun t => ("gamesUpdated", t))) T ⟨some (t0 + coalesceD), [], []⟩ := by
      simp [runFrontend, initFrontend, fireGamesIfDue, dispatchWindow, handleGamesUpdate]
    rw [hstep]
    exact games_burst_aux ts t0 t0 (t0 + coalesceD) T [] [] (le_refl t0) (le_refl _)
      hT0 hs hw hT
  · intro ts T
    have hinit : initFrontend = (⟨none, [], []⟩ : FrontendState) := rfl
    have h := props_immediate_aux ts T [] []
    rw [hinit]
    refine ⟨?_, h.2⟩
    rw [h.1]
    simp

/-- C7 witness: three `games` notifications at 0/50/100 ms within the window
give one refresh; two `player_props` notifications give two. -/
theorem C7_per_key_coalescing_witness :
    ((runFrontend ((0 :: [50, 100]).map (fun t => ("gamesUpdated", t))) 1000
        initFrontend).gamesFires.length = 1 ∧
     (runFrontend ((0 :: [50, 100]).map (fun t => ("gamesUpdated", t))) 1000
        initFrontend).propsFires = []) ∧
    ((runFrontend ([0, 50].map (fun t => ("propsUpdated", t))) 1000
        initFrontend).propsFires.length = [0, 50].length ∧
     (runFrontend ([0, 50].map (fun t => ("propsUpdated", t))) 1000
        initFrontend).gamesFires = []) :=
  ⟨C7_per_key_coalescing.1 0 [50, 100] 1000 (by decide) (by decide) (by decide) (by decide),
   C7_per_key_coalescing.2 [0, 50] 1000⟩

/-- C8 counterexample: two `games` notifications at 0 ms and 50 ms with
D = 250 ms — the single refresh fires at 300 ms (250 ms after the second
notification, because the handler clears and restarts the timer), not at
250 ms after the first notification. -/
theorem C8_fire_time_counterexample :
    (runFrontend [("gamesUpdated", 0), ("gamesUpdated", 50)] 1000 initFrontend).gamesFires
      = [300] ∧
    (300 : Nat) ≠ 0 + coalesceD := by
  refine ⟨rfl, by decide⟩

/-- C8 (amended): two `games` notifications 50 ms apart with D = 250 ms
produce exactly one refresh — but it fires 250 ms after the second (last)
notification, i.e. 300 ms after the first, because the handler debounces
(clearTimeout + setTimeout) rather than keeping the first timer. -/
theorem C8_two_notifications_one_refresh :
    (runFrontend [("gamesUpdated", 0), ("gamesUpdated", 50)] 1000 initFrontend).gamesFires
      = [50 + coalesceD] ∧
    (runFrontend [("gamesUpdated", 0), ("gamesUpdated", 50)] 1000
        initFrontend).gamesFires.length = 1 := by
  refine ⟨rfl, rfl⟩

/-- C9: a parsed `data_update` envelope with `data_type = "games"` makes the
hook dispatch exactly one `gamesUpdated` window event carrying `data` as its
detail; every listener registered under `gamesUpdated` receives that detail,
and a listener registered under `playersUpdated` receives nothing from this
dispatch. -/
theorem C9_games_update_dispatch :
    ∀ (s : HookState) (w : Socket) (payload : Json) (listeners : List (String × Nat)),
      s.ws = some w → s.shouldReconnect = true →
      (onMessage s w.id (some ⟨"data_update", some "games", some payload, none, none⟩)).dispatched
        = s.dispatched ++ [("gamesUpdated", some payload)] ∧
      (∀ l ∈ listeners, l.1 = "gamesUpdated" →
        (l.2, some payload) ∈ deliver listeners ("gamesUpdated", some payload)) ∧
      (∀ i : Nat, deliver [("playersUpdated", i)] ("gamesUpdated", some payload) = []) := by
  intro s w payload listeners hws hsr
  refine ⟨?_, ?_, ?_⟩
  · simp [onMessage, hws, hsr]
  · intro l hl hname
    unfold deliver
    exact List.mem_filterMap.mpr ⟨l, hl, by simp [hname]⟩
  · intro i
    simp [deliver]

/-- C9 witness: the frame
`{"type":"data_update","data_type":"games","data":{"id":1}}` arriving on the
connected state, with one games listener and one players listener. -/
theorem C9_games_update_dispatch_witness :
    (onMessage connectedState 0
        (some ⟨"data_update", some "games", some (Json.obj [("id", Json.num 1)]), none, none⟩)).dispatched
      = connectedState.dispatched ++ [("gamesUpdated", some (Json.obj [("id", Json.num 1)]))] ∧
    ((7 : Nat), some (Json.obj [("id", Json.num 1)])) ∈
      deliver [("gamesUpdated", 7), ("playersUpdated", 8)]
        ("gamesUpdated", some (Json.obj [("id", Json.num 1)])) ∧
    deliver [("playersUpdated", 8)]
        ("gamesUpdated", some (Json.obj [("id", Json.num 1)])) = [] := by
  have h := C9_games_update_dispatch connectedState ⟨0, ReadyState.OPEN⟩
    (Json.obj [("id", Json.num 1)]) [("gamesUpdated", 7), ("playersUpdated", 8)] rfl rfl
  exact ⟨h.1, h.2.1 ("gamesUpdated", 7) (by simp) rfl, h.2.2 8⟩

/-- C10: a parsed `data_update` envelope whose `data_type` is none of
`games`, `players`, `player_props` dispatches no window event at all — the
update is silently dropped — yet is still recorded as `lastMessage`. -/
theorem C10_unknown_data_type_dropped :
    ∀ (s : HookState) (w : Socket) (dt : String) (d : Option Json),
      s.ws = some w → s.shouldReconnect = true →
      dt ≠ "games" → dt ≠ "players" → dt ≠ "player_props" →
      (onMessage s w.id (some ⟨"data_update", some dt, d, none, none⟩)).dispatched
        = s.dispatched ∧
      (onMessage s w.id (some ⟨"data_update", some dt, d, none, none⟩)).lastMessage
        = some ⟨"data_update", some dt, d, none, none⟩ := by
  intro s w dt d hws hsr h1 h2 h3
  constructor <;> simp [onMessage, hws, hsr, h1, h2, h3]

/-- C10 witness: a `data_update` frame with `data_type = "odds"` leaves the
dispatch log untouched but becomes `lastMessage`. -/
theorem C10_unknown_data_type_dropped_witness :
    (onMessage connectedState 0
        (some ⟨"data_update", some "odds", some (Json.num 5), none, none⟩)).dispatched
      = connectedState.dispatched ∧
    (onMessage connectedState 0
        (some ⟨"data_update", some "odds", some (Json.num 5), none, none⟩)).lastMessage
      = some ⟨"data_update", some "odds", some (Json.num 5), none, none⟩ :=
  C10_unknown_data_type_dropped connectedState ⟨0, ReadyState.OPEN⟩ "odds"
    (some (Json.num 5)) rfl rfl (by decide) (by decide) (by decide)

end Karchain
